import Mathlib

/-!
Shallow embedding of the pgacloud command-line tool (dpage/pgacloud).

The repository provisions managed PostgreSQL instances on cloud providers.
Each Python function is embedded as an executable Lean definition.  Effects
(standard output, standard error, sleeping, SDK calls) are recorded in an
explicit event trace; process termination (`sys.exit`) and propagating Python
exceptions are distinguished outcomes.  The external SDK calls, HTTP lookups,
the clock and the random number generator are supplied by oracle structures
(`RdsWorld`, `AzureWorld`, ...): each oracle field is the result the external
collaborator would return, success or exception.
-/

namespace Pgacloud

/-- A Python value as it appears in the tool's JSON output.  `output` in
`utils/io.py` serializes a dict with `json.dumps`; we keep the dict itself
(an association list) rather than modelling the serialization text. -/
inductive PyVal : Type where
  | str (s : String)
  | int (n : Int)
  | list (l : List PyVal)
  | dict (l : List (String × PyVal))

/-- One observable effect of a run: a JSON document printed on standard
output, a line printed on standard error, a `time.sleep` of the given number
of seconds, or an SDK method call (named by the method invoked). -/
inductive Event : Type where
  | out (v : PyVal)
  | err (line : String)
  | sleepSec (n : Nat)
  | sdk (call : String)

/-- How a (modelled) Python computation ends: a normal return value,
`sys.exit code`, a Python exception propagating out uncaught (with its
message), or exhaustion of the modelling fuel for the polling loop. -/
inductive Outcome (α : Type) : Type where
  | ok (a : α)
  | exit (code : Nat)
  | exc (msg : String)
  | diverge

/-- A computation result: outcome paired with the trace of events emitted. -/
def Res (α : Type) : Type := Outcome α × List Event

/-- Sequencing: on a normal return run the continuation and append its
events; `sys.exit`, an uncaught exception and divergence short-circuit. -/
def Res.bind {α β : Type} (r : Res α) (f : α → Res β) : Res β :=
  match r with
  | (Outcome.ok a, evs) =>
    let r2 := f a
    (r2.1, evs ++ r2.2)
  | (Outcome.exit c, evs) => (Outcome.exit c, evs)
  | (Outcome.exc m, evs) => (Outcome.exc m, evs)
  | (Outcome.diverge, evs) => (Outcome.diverge, evs)

/-- Prepend already-emitted events to a computation's result. -/
def withEvents {α : Type} (evs : List Event) (r : Res α) : Res α :=
  (r.1, evs ++ r.2)

/-- The JSON documents printed on standard output within a trace. -/
def outs (evs : List Event) : List PyVal :=
  evs.filterMap fun e =>
    match e with
    | Event.out v => some v
    | _ => none

/-- The lines printed on standard error within a trace. -/
def errLines (evs : List Event) : List String :=
  evs.filterMap fun e =>
    match e with
    | Event.err l => some l
    | _ => none

/-- How many times the SDK method named `call` was invoked in a trace. -/
def countSdk (call : String) (evs : List Event) : Nat :=
  evs.countP fun e =>
    match e with
    | Event.sdk c => c == call
    | _ => false

/-- The keys of a JSON dict, in order (empty for non-dicts). -/
def PyVal.keys : PyVal → List String
  | PyVal.dict l => l.map Prod.fst
  | _ => []

/-! ## utils/io.py -/

/-- A wall-clock time of day, as returned by `datetime.datetime.now()`. -/
structure Time : Type where
  hour : Nat
  minute : Nat
  second : Nat

/-- The decimal digit character for `n < 10`. -/
def digitChar (n : Nat) : Char := Char.ofNat (48 + n)

/-- Zero-padded two-digit decimal rendering of a field value, as produced by
the `%H`, `%M`, `%S` directives of `strftime` (external library behaviour,
modelled for field values below 100). -/
def two (n : Nat) : String := String.mk [digitChar (n / 10), digitChar (n % 10)]

/-- Embedding of `now.strftime("%H:%M:%S")` from `utils/io.py` line 22 (the `strftime`
call itself is standard-library behaviour, modelled here). -/
def strftimeHMS (t : Time) : String :=
  two t.hour ++ ":" ++ two t.minute ++ ":" ++ two t.second

/-- Embedding of `utils/io.py` `debug(args, message)`: when `args.debug` is unset, return
with no effect; otherwise print one line `[HH:MM:SS]: message` to stderr.
The events the call emits are returned. -/
def debug (dbg : Bool) (now : Time) (message : String) : List Event :=
  if !dbg then []
  else [Event.err ("[" ++ strftimeHMS now ++ "]: " ++ message)]

/-- Embedding of `utils/io.py` `output(data)`: print the JSON document on stdout. -/
def output (data : PyVal) : Event := Event.out data

/-- Embedding of `utils/io.py` `error(args, message)`: `debug(args, message)`, then
`output` the one-key error dict, then `sys.exit(1)`. -/
def error {α : Type} (dbg : Bool) (now : Time) (message : String) : Res α :=
  (Outcome.exit 1,
   debug dbg now message ++ [output (PyVal.dict [("error", PyVal.str message)])])

/-! ## utils/misc.py -/

/-- Embedding of `utils/misc.py` `get_my_ip()`: the two `urllib.request.urlopen(...)`
lookups are oracles (`Except.error` is any exception the bare `except:`
would catch).  Try `https://ident.me`; on any failure try
`https://ifconfig.me/ip`; on failure of both return `127.0.0.1`. -/
def get_my_ip (primary secondary : Except String String) : String :=
  match primary with
  | Except.ok external_ip => external_ip
  | Except.error _ =>
    match secondary with
    | Except.ok external_ip => external_ip
    | Except.error _ => "127.0.0.1"

/-- Python `string.ascii_letters`. -/
def ascii_letters : String := "abcdefghijklmnopqrstuvwxyzABCDEFGHIJKLMNOPQRSTUVWXYZ"

/-- Python `string.digits`. -/
def string_digits : String := "0123456789"

/-- Python `letters = string.ascii_letters + string.digits` from `get_random_id`. -/
def letters : List Char := (ascii_letters ++ string_digits).toList

/-- Embedding of `utils/misc.py` `get_random_id()`: join 10 `random.choice(letters)`
picks.  The random generator is the oracle `choice`, giving the index picked
on each of the 10 iterations. -/
def get_random_id (choice : Nat → Fin letters.length) : String :=
  String.mk ((List.range 10).map fun i => letters.get (choice i))

/-- Python's single-character `s.replace(old, new)` (for one-character
patterns `str.replace` is exactly a character map). -/
def replaceChar (old new : Char) (s : String) : String :=
  String.mk (s.data.map fun ch => if ch == old then new else ch)

/-- The rule/group name format shared verbatim by
`RdsProvider._create_security_group` (rds.py lines 125-127) and
`AzureProvider._create_firewall_rule` (azure.py lines 190-192):
`'pgacloud_{}_{}_{}'.format(args.name, ip.replace('.', '-'), get_random_id())`. -/
def pgacloudRuleName (name ip rid : String) : String :=
  "pgacloud_" ++ name ++ "_" ++ replaceChar '.' '-' ip ++ "_" ++ rid

/-! ## The per-operation SDK client cache

`RdsProvider._get_aws_client` (rds.py lines 104-116) and
`AzureProvider._get_azure_client` (azure.py lines 99-126) keep a dict
`self._clients` from resource-type to SDK client.  Constructing an SDK
client is external; we model clients by the order in which they are
constructed (`constructed` counts constructions, and the client built by
the n-th construction is the value `n`).  The Azure getter's
credential/subscription handling (azure.py lines 101-112) precedes the
cache logic and touches neither the cache nor the constructed clients; it
is omitted from the cache model. -/

/-- Python dict lookup on an association list. -/
def lookupKey (l : List (String × Nat)) (k : String) : Option Nat :=
  match l with
  | [] => none
  | (k2, v) :: rest => if k2 == k then some v else lookupKey rest k

/-- Python dict assignment `d[k] = v` on an association list. -/
def setKey (l : List (String × Nat)) (k : String) (v : Nat) : List (String × Nat) :=
  match l with
  | [] => [(k, v)]
  | (k2, v2) :: rest => if k2 == k then (k, v) :: rest else (k2, v2) :: setKey rest k v

/-- The `self._clients` dict together with the construction counter. -/
structure ClientCache : Type where
  cache : List (String × Nat)
  constructed : Nat

/-- Embedding of `RdsProvider._get_aws_client(type, args)`: if `type in self._clients`
return `self._clients[type]`; otherwise construct a session client and store
it — under the literal string key `'type'`, exactly as the source does
(`self._clients['type'] = session.client(type, ...)`) — then return
`self._clients['type']`. -/
def _get_aws_client (type : String) (st : ClientCache) : Nat × ClientCache :=
  match lookupKey st.cache type with
  | some client => (client, st)
  | none =>
    let client := st.constructed
    let cache2 := setKey st.cache "type" client
    ((lookupKey cache2 "type").getD client,
     { cache := cache2, constructed := st.constructed + 1 })

/-- Embedding of `AzureProvider._get_azure_client(type)`, cache logic (azure.py lines
114-126): if `type in self._clients` return `self._clients[type]`;
otherwise construct the management client for `type` and store it under the
literal string key `'type'` (`self._clients['type'] = client`), then return
`self._clients['type']`. -/
def _get_azure_client (type : String) (st : ClientCache) : Nat × ClientCache :=
  match lookupKey st.cache type with
  | some client => (client, st)
  | none =>
    let client := st.constructed
    let cache2 := setKey st.cache "type" client
    ((lookupKey cache2 "type").getD client,
     { cache := cache2, constructed := st.constructed + 1 })

/-! ## Dispatcher (pgacloud.py)

`load_providers` scans the `providers/` directory and keeps every `.py`
module whose name does not start with an underscore: `azure`, `rds`,
`starlight`.  `execute_command` (pgacloud.py lines 66 and 74) accesses
`providers[args.provider].commands` — but no class in the source defines a
`commands` attribute: `_abstract.py` line 17 defines only the
underscore-prefixed `_commands`, and no provider overrides it.  A Python
attribute access on a missing name raises `AttributeError`, so every
branch of `execute_command` that reaches a loaded provider raises before
any command table is consulted.  (`get_args` at pgacloud.py line 48 has
the analogous mismatch: it calls `init_args`, which only `AzureProvider`
defines — `RdsProvider` and `StarlightProvider` define `_init_args`.) -/

/-- The provider names loaded by `load_providers()`. -/
def providerNames : List String := ["azure", "rds", "starlight"]

/-- The sub-command names each provider declares to argparse (the strings
passed to `parsers.add_parser` inside the provider's arg-parser setup);
these are the only non-`None` values `args.command` can take after a
successful parse. -/
def cliCommands : String → List String
  | "azure" => ["create-instance", "delete-instance"]
  | "rds" => ["deploy-cluster", "get-clusters", "get-vpcs", "get-instance-types"]
  | "starlight" => ["deploy-cluster", "list-types"]
  | _ => []

/-- A (provider, command) pair that `argparse` can actually produce:
either nothing, a loaded provider alone, or a loaded provider with one of
its declared sub-commands. -/
def parsedInvocation (provider command : Option String) : Prop :=
  match provider, command with
  | none, none => True
  | some p, none => p ∈ providerNames
  | some p, some c => p ∈ providerNames ∧ c ∈ cliCommands p
  | none, some _ => False

/-- What `execute_command` ends up doing: printing the top-level help, an
uncaught `AttributeError` from `providers[p].commands` (the attribute does
not exist on any provider), or an uncaught `KeyError` from `providers[p]`
itself (unknown provider name, unreachable through argparse). -/
inductive DispatchResult : Type where
  | topHelp
  | attributeError (p : String)
  | keyErrProvider (p : String)
deriving DecidableEq

/-- Embedding of `pgacloud.py` `execute_command(providers, parser, args)`:
`args.command`, when present, first has `-` replaced by `_`; then, if the
provider is loaded and a command is present, the source evaluates
`providers[args.provider].commands()[args.command]` — which raises
`AttributeError` at `.commands`, since no provider class defines that
attribute (`_abstract.py` defines only `_commands`); otherwise a missing
provider prints the top-level help, and a loaded provider without a
command evaluates `providers[args.provider].commands()['help']`, raising
the same `AttributeError`.  An unknown provider name would instead raise
`KeyError` at `providers[args.provider]`. -/
def execute_command (provider command0 : Option String) : DispatchResult :=
  let _command := command0.map (replaceChar '-' '_')
  match provider with
  | some p =>
    if p ∈ providerNames then DispatchResult.attributeError p
    else DispatchResult.keyErrProvider p
  | none => DispatchResult.topHelp

/-! ## providers/rds.py -/

/-- The parsed arguments of `rds deploy-cluster` (plus the global
`--debug` flag). -/
structure RdsArgs : Type where
  debug : Bool
  region : String
  name : String
  db_name : String
  db_password : String
  db_username : String
  instance_type : String
  storage_iops : Int
  storage_size : Int
  storage_type : String

/-- Outcome of `rds.create_db_instance`: success, the
`DBInstanceAlreadyExistsFault` exception, or any other exception. -/
inductive RdsCreateErr : Type where
  | alreadyExists
  | other (msg : String)

/-- One `rds.describe_db_instances` response, reduced to the two pieces the
code reads: `response['DBInstances'][0]['DBInstanceStatus']` and the
`response['DBInstances']` value that `_create_rds_instance` returns. -/
structure PollResp : Type where
  status : String
  dbInstances : PyVal

/-- Oracle for one `rds deploy-cluster` run: the clock, the two HTTP IP
lookups, the random generator, and the result of each AWS SDK call
(`Except.error` carries the exception message).  `polls i` is the response
of the i-th `describe_db_instances` poll. -/
structure RdsWorld : Type where
  clock : Time
  ipPrimary : Except String String
  ipSecondary : Except String String
  randChoice : Nat → Fin letters.length
  create_security_group_result : Except String String
  authorize_ingress_result : Except String Unit
  describe_security_groups_result : Except String PyVal
  create_db_instance_result : Except RdsCreateErr Unit
  polls : Nat → PollResp
  delete_security_group_result : Except String Unit

/-- Embedding of `RdsProvider._create_security_group(args)`: compute the caller's IP and
the `pgacloud_..._...` name, debug, call `ec2.create_security_group`; on
success return `response['GroupId']`, on any exception call `error`. -/
def _create_security_group (w : RdsWorld) (args : RdsArgs) : Res String :=
  let ip := get_my_ip w.ipPrimary w.ipSecondary
  let name := pgacloudRuleName args.name ip (get_random_id w.randChoice)
  let evs := debug args.debug w.clock ("Creating security group with name: " ++ name ++ "...")
             ++ [Event.sdk "create_security_group"]
  match w.create_security_group_result with
  | Except.ok groupId => (Outcome.ok groupId, evs)
  | Except.error e => withEvents evs (error args.debug w.clock e)

/-- Embedding of `RdsProvider._add_ingress_rule(args, security_group)`: debug, call
`ec2.authorize_security_group_ingress` for port 5432 from the caller's
IP/32; on any exception call `error` — note: no compensating delete of the
security group happens here in the source. -/
def _add_ingress_rule (w : RdsWorld) (args : RdsArgs) (security_group : String) : Res Unit :=
  let ip := get_my_ip w.ipPrimary w.ipSecondary
  let evs := debug args.debug w.clock ("Adding ingress rule for: " ++ ip ++ "/32...")
             ++ [Event.sdk "authorize_security_group_ingress"]
  match w.authorize_ingress_result with
  | Except.ok _ => (Outcome.ok (), evs)
  | Except.error e => withEvents evs (error args.debug w.clock e)

/-- Embedding of `RdsProvider._get_security_group(args, security_group)`: debug, call
`ec2.describe_security_groups`; on success return
`response['SecurityGroups']`; on exception, best-effort
`ec2.delete_security_group` (its own failure swallowed by the inner bare
`except: pass`) and then `error`. -/
def _get_security_group (w : RdsWorld) (args : RdsArgs) (security_group : String) : Res PyVal :=
  let evs := debug args.debug w.clock
               ("Retrieving security group configuration for: " ++ security_group ++ "...")
             ++ [Event.sdk "describe_security_groups"]
  match w.describe_security_groups_result with
  | Except.ok securityGroups => (Outcome.ok securityGroups, evs)
  | Except.error e =>
    withEvents (evs ++ [Event.sdk "delete_security_group"]) (error args.debug w.clock e)

/-- Condition `status != 'creating' and status != 'backing-up'` negated: the loop
keeps `running` exactly while the status is one of the two transient
states. -/
def transient (status : String) : Bool :=
  status == "creating" || status == "backing-up"

/-- The events of one iteration of the wait loop in
`_create_rds_instance`: the `describe_db_instances` call, the
`debug('Status: ...')` line, and the unconditional `time.sleep(30)`. -/
def pollIterEvents (w : RdsWorld) (args : RdsArgs) (i : Nat) : List Event :=
  [Event.sdk "describe_db_instances"]
  ++ debug args.debug w.clock ("Status: " ++ (w.polls i).status)
  ++ [Event.sleepSec 30]

/-- The `while running:` wait loop of `_create_rds_instance` (rds.py lines
222-237), polling from index `i`: describe the instance, clear `running`
when the status is neither `creating` nor `backing-up`, debug the status,
sleep 30 seconds, repeat; finally return `response['DBInstances']` of the
last poll.  `fuel` bounds the modelled iterations; exhaustion is the
`diverge` outcome (the source loop would simply keep polling).  Note that
in the source this loop sits outside every `try`/`except`, so an exception
raised by a describe call would propagate uncaught; the oracle `polls`
supplies the responses of describe calls that return, i.e. it models the
runs in which the polled statuses are actually observed. -/
def pollLoop (w : RdsWorld) (args : RdsArgs) : Nat → Nat → Res PyVal
  | _, 0 => (Outcome.diverge, [])
  | i, fuel + 1 =>
    let resp := w.polls i
    if transient resp.status then
      withEvents (pollIterEvents w args i) (pollLoop w args (i + 1) fuel)
    else
      (Outcome.ok resp.dbInstances, pollIterEvents w args i)

/-- Embedding of `RdsProvider._create_rds_instance(args, security_group)`: debug, call
`rds.create_db_instance`; on `DBInstanceAlreadyExistsFault` best-effort
delete the security group and `error('RDS instance <name> already
exists.')`; on any other exception best-effort delete the security group
and `error`; on success run the wait loop and return its
`response['DBInstances']`. -/
def _create_rds_instance (w : RdsWorld) (args : RdsArgs) (security_group : String)
    (fuel : Nat) : Res PyVal :=
  let evs := debug args.debug w.clock ("Creating RDS instance: " ++ args.name ++ "...")
             ++ [Event.sdk "create_db_instance"]
  match w.create_db_instance_result with
  | Except.error RdsCreateErr.alreadyExists =>
    withEvents (evs ++ [Event.sdk "delete_security_group"])
      (error args.debug w.clock ("RDS instance " ++ args.name ++ " already exists."))
  | Except.error (RdsCreateErr.other e) =>
    withEvents (evs ++ [Event.sdk "delete_security_group"])
      (error args.debug w.clock e)
  | Except.ok _ => withEvents evs (pollLoop w args 0 fuel)

/-- Embedding of `RdsProvider.deploy_cluster(args)`: create the security group, add the
ingress rule, describe the security group into `data['security_groups']`,
create the RDS instance into `data['clusters']`, and `output(data)`. -/
def deploy_cluster (w : RdsWorld) (args : RdsArgs) (fuel : Nat) : Res Unit :=
  Res.bind (_create_security_group w args) fun security_group =>
  Res.bind (_add_ingress_rule w args security_group) fun _ =>
  Res.bind (_get_security_group w args security_group) fun security_groups =>
  Res.bind (_create_rds_instance w args security_group fuel) fun clusters =>
  (Outcome.ok (),
   [output (PyVal.dict [("security_groups", security_groups), ("clusters", clusters)])])

/-! ## providers/azure.py -/

/-- The parsed arguments of `azure create-instance` (plus the global
`--debug` flag and the provider-level `--resource-group`). -/
structure AzureArgs : Type where
  debug : Bool
  region : String
  resource_group : String
  name : String
  db_name : String
  db_password : String
  db_username : String
  db_major_version : String
  instance_type : String
  storage_size : Int

/-- The fields of `result.__dict__` of
`resource_client.resource_groups.create_or_update` that the code reads. -/
structure ResourceGroup : Type where
  name : String

/-- The fields of `server.__dict__` (the created PostgreSQL server) that
`cmd_create_instance` reads. -/
structure AzureServer : Type where
  id : String
  location : String
  fully_qualified_domain_name : String
  administrator_login : String

/-- The fields of `firewall_rule.__dict__` that `cmd_create_instance`
reads. -/
structure FirewallRule : Type where
  id : String

/-- Outcome of `postgresql_client.servers.get` in the existence check of
`_create_azure_instance`: the server exists, a `ResourceNotFoundError` was
raised (caught and passed), or some other exception was raised. -/
inductive ServersGet : Type where
  | found
  | notFound
  | raises (msg : String)

/-- Oracle for one `azure create-instance` run: clock, IP lookups, random
generator, and each Azure SDK call's result (`Except.error` carries the
exception message).  `begin_create`/`begin_create_or_update` return pollers
whose `.result()` waits are separate oracle fields, since in the source the
waits sit outside the `try` blocks. -/
structure AzureWorld : Type where
  clock : Time
  ipPrimary : Except String String
  ipSecondary : Except String String
  randChoice : Nat → Fin letters.length
  resource_groups_create_or_update : Except String ResourceGroup
  servers_get : ServersGet
  servers_begin_create : Except String Unit
  create_poller_result : Except String AzureServer
  firewall_begin_create_or_update : Except String Unit
  firewall_poller_result : Except String FirewallRule

/-- Embedding of `AzureProvider._create_resource_group(args)`: debug, then call
`resource_client.resource_groups.create_or_update` and return
`result.__dict__`.  There is no `try`/`except` here: an exception
propagates out uncaught. -/
def _create_resource_group (w : AzureWorld) (args : AzureArgs) : Res ResourceGroup :=
  let evs := debug args.debug w.clock
               ("Creating resource group with name: " ++ args.resource_group ++ "...")
             ++ [Event.sdk "resource_groups.create_or_update"]
  match w.resource_groups_create_or_update with
  | Except.ok result => (Outcome.ok result, evs)
  | Except.error e => (Outcome.exc e, evs)

/-- Embedding of `AzureProvider._create_azure_instance(args)`: existence check via
`servers.get` (`ResourceNotFoundError` passed, other exceptions go to
`error`, an existing server goes to `error('... already exists.')`);
then debug and `servers.begin_create` inside a `try` whose handler calls
`error`; then `poller.result()` — outside the `try`, so an exception in
the wait propagates uncaught — and return `server.__dict__`. -/
def _create_azure_instance (w : AzureWorld) (args : AzureArgs) : Res AzureServer :=
  let evs0 := [Event.sdk "servers.get"]
  match w.servers_get with
  | ServersGet.raises e => withEvents evs0 (error args.debug w.clock e)
  | ServersGet.found =>
    withEvents evs0
      (error args.debug w.clock
        ("Azure Database for PostgreSQL instance " ++ args.name ++ " already exists."))
  | ServersGet.notFound =>
    let evs1 := evs0
                ++ debug args.debug w.clock ("Creating Azure instance: " ++ args.name ++ "...")
                ++ [Event.sdk "servers.begin_create"]
    match w.servers_begin_create with
    | Except.error e => withEvents evs1 (error args.debug w.clock e)
    | Except.ok _ =>
      match w.create_poller_result with
      | Except.ok server => (Outcome.ok server, evs1)
      | Except.error e => (Outcome.exc e, evs1)

/-- Embedding of `AzureProvider._create_firewall_rule(args)`: compute the caller's IP
and the `pgacloud_..._...` rule name, debug, call
`firewall_rules.begin_create_or_update` and wait on `poller.result()`,
returning `firewall_rule.__dict__`.  There is no `try`/`except` anywhere in
this function: any exception propagates out uncaught. -/
def _create_firewall_rule (w : AzureWorld) (args : AzureArgs) : Res FirewallRule :=
  let ip := get_my_ip w.ipPrimary w.ipSecondary
  let _name := pgacloudRuleName args.name ip (get_random_id w.randChoice)
  let evs := debug args.debug w.clock ("Adding ingress rule for: " ++ ip ++ "/32...")
             ++ [Event.sdk "firewall_rules.begin_create_or_update"]
  match w.firewall_begin_create_or_update with
  | Except.error e => (Outcome.exc e, evs)
  | Except.ok _ =>
    match w.firewall_poller_result with
    | Except.ok firewall_rule => (Outcome.ok firewall_rule, evs)
    | Except.error e => (Outcome.exc e, evs)

/-- Embedding of `AzureProvider.cmd_create_instance(args)`: create the resource group,
create the instance, create the firewall rule, then `output` the result
dict with the eight keys assembled at azure.py lines 233-242. -/
def cmd_create_instance (w : AzureWorld) (args : AzureArgs) : Res Unit :=
  Res.bind (_create_resource_group w args) fun rg =>
  Res.bind (_create_azure_instance w args) fun inst =>
  Res.bind (_create_firewall_rule w args) fun fw =>
  (Outcome.ok (),
   [output (PyVal.dict
     [("Id", PyVal.str inst.id),
      ("ResourceGroupId", PyVal.str rg.name),
      ("FirewallRuleId", PyVal.str fw.id),
      ("Location", PyVal.str inst.location),
      ("Hostname", PyVal.str inst.fully_qualified_domain_name),
      ("Port", PyVal.int 5432),
      ("Database", PyVal.str "postgres"),
      ("Username", PyVal.str inst.administrator_login)])])

/-! ## Shared lemmas about traces -/

theorem outs_append (a b : List Event) : outs (a ++ b) = outs a ++ outs b := by
  simp [outs, List.filterMap_append]

theorem countSdk_append (n : String) (a b : List Event) :
    countSdk n (a ++ b) = countSdk n a + countSdk n b := by
  simp [countSdk, List.countP_append]

theorem outs_debug (d : Bool) (t : Time) (m : String) : outs (debug d t m) = [] := by
  cases d <;> simp [debug, outs]

theorem countSdk_debug (n : String) (d : Bool) (t : Time) (m : String) :
    countSdk n (debug d t m) = 0 := by
  cases d <;> simp [debug, countSdk]

theorem outs_nil : outs [] = [] := rfl

theorem outs_cons_out (v : PyVal) (t : List Event) :
    outs (Event.out v :: t) = v :: outs t := rfl

theorem outs_cons_err (l : String) (t : List Event) :
    outs (Event.err l :: t) = outs t := rfl

theorem outs_cons_sdk (c : String) (t : List Event) :
    outs (Event.sdk c :: t) = outs t := rfl

theorem outs_cons_sleep (n : Nat) (t : List Event) :
    outs (Event.sleepSec n :: t) = outs t := rfl

theorem countSdk_nil (n : String) : countSdk n [] = 0 := rfl

theorem countSdk_cons_sdk (n c : String) (t : List Event) :
    countSdk n (Event.sdk c :: t) = countSdk n t + (if c == n then 1 else 0) := by
  simp [countSdk, List.countP_cons]

theorem countSdk_cons_out (n : String) (v : PyVal) (t : List Event) :
    countSdk n (Event.out v :: t) = countSdk n t := by
  simp [countSdk, List.countP_cons]

theorem countSdk_cons_err (n l : String) (t : List Event) :
    countSdk n (Event.err l :: t) = countSdk n t := by
  simp [countSdk, List.countP_cons]

theorem countSdk_cons_sleep (n : String) (m : Nat) (t : List Event) :
    countSdk n (Event.sleepSec m :: t) = countSdk n t := by
  simp [countSdk, List.countP_cons]

theorem digitChar_isDigit {n : Nat} (h : n < 10) : (digitChar n).isDigit = true := by
  interval_cases n <;> decide

theorem letters_alphanum : ∀ c ∈ letters, c.isAlphanum = true := by decide

/-! ## Claim C7 -/

/-- Claim C7: `get_my_ip` first tries the primary HTTP lookup; if that
fails for any reason it tries the secondary lookup; if both fail it
returns `"127.0.0.1"`.  The embedding is a total function into `String`
(both lookups are wrapped in bare `except:` handlers in the source), so
IP-lookup failure can never raise out of the probe. -/
theorem c7_get_my_ip_fallback (p s : Except String String) :
    (∀ ip, p = Except.ok ip → get_my_ip p s = ip)
    ∧ (∀ e ip, p = Except.error e → s = Except.ok ip → get_my_ip p s = ip)
    ∧ (∀ e1 e2, p = Except.error e1 → s = Except.error e2 →
        get_my_ip p s = "127.0.0.1") := by
  refine ⟨?_, ?_, ?_⟩ <;> intros <;> subst_vars <;> rfl

/-- Witness for C7 at a concrete pair of failing lookups. -/
theorem c7_witness :
    get_my_ip (Except.error "timed out") (Except.error "connection refused")
      = "127.0.0.1" :=
  (c7_get_my_ip_fallback (Except.error "timed out")
    (Except.error "connection refused")).2.2 "timed out" "connection refused" rfl rfl

/-! ## Claim C8 -/

/-- Claim C8: with the debug flag disabled, `debug` emits nothing at all;
with it enabled it emits exactly one stderr line, the message prefixed by
the wall-clock timestamp in `HH:MM:SS` form (two-digit fields separated by
colons). -/
theorem c8_debug_line (now : Time) (message : String)
    (hh : now.hour < 24) (hm : now.minute < 60) (hs : now.second < 60) :
    debug false now message = []
    ∧ debug true now message
        = [Event.err ("[" ++ strftimeHMS now ++ "]: " ++ message)]
    ∧ ∃ h1 h2 m1 m2 s1 s2 : Char,
        (strftimeHMS now).data = [h1, h2, ':', m1, m2, ':', s1, s2]
        ∧ h1.isDigit = true ∧ h2.isDigit = true ∧ m1.isDigit = true
        ∧ m2.isDigit = true ∧ s1.isDigit = true ∧ s2.isDigit = true := by
  refine ⟨rfl, rfl,
    digitChar (now.hour / 10), digitChar (now.hour % 10),
    digitChar (now.minute / 10), digitChar (now.minute % 10),
    digitChar (now.second / 10), digitChar (now.second % 10),
    rfl, ?_, ?_, ?_, ?_, ?_, ?_⟩ <;>
  exact digitChar_isDigit (by omega)

/-- Witness for C8 at the concrete time 09:05:30. -/
theorem c8_witness :
    debug false ⟨9, 5, 30⟩ "polling" = []
    ∧ debug true ⟨9, 5, 30⟩ "polling"
        = [Event.err ("[" ++ strftimeHMS ⟨9, 5, 30⟩ ++ "]: " ++ "polling")] :=
  ⟨(c8_debug_line ⟨9, 5, 30⟩ "polling" (by decide) (by decide) (by decide)).1,
   (c8_debug_line ⟨9, 5, 30⟩ "polling" (by decide) (by decide) (by decide)).2.1⟩

/-! ## Claim C10 -/

/-- Claim C10: `get_random_id` always returns a string of exactly 10
characters, each from `ascii_letters + digits`; consequently the shared
security-group / firewall-rule name format is
`pgacloud_<name>_<ip with dots replaced by dashes>_<10-char alphanumeric>`. -/
theorem c10_random_id_shape (name ip : String) (choice : Nat → Fin letters.length) :
    (get_random_id choice).length = 10
    ∧ (∀ c, c ∈ (get_random_id choice).data → c.isAlphanum = true)
    ∧ ∃ suffix,
        pgacloudRuleName name ip (get_random_id choice)
          = "pgacloud_" ++ name ++ "_" ++ replaceChar '.' '-' ip ++ "_" ++ suffix
        ∧ suffix.length = 10
        ∧ ∀ c, c ∈ suffix.data → c.isAlphanum = true := by
  have hlen : (get_random_id choice).length = 10 := by
    simp [get_random_id, String.length]
  have hmem : ∀ c, c ∈ (get_random_id choice).data → c.isAlphanum = true := by
    intro c hc
    simp only [get_random_id, String.mk, List.mem_map] at hc
    obtain ⟨i, _, rfl⟩ := hc
    exact letters_alphanum _ (List.get_mem letters _ (choice i).2)
  exact ⟨hlen, hmem, get_random_id choice, rfl, hlen, hmem⟩

/-- Witness for C10 at a concrete constant random oracle. -/
theorem c10_witness :
    (get_random_id (fun _ => ⟨0, by decide⟩)).length = 10
    ∧ Char.isAlphanum 'a' = true :=
  ⟨(c10_random_id_shape "db1" "198.51.100.9" (fun _ => ⟨0, by decide⟩)).1,
   (c10_random_id_shape "db1" "198.51.100.9" (fun _ => ⟨0, by decide⟩)).2.1
     'a' (by decide)⟩

/-! ## Claim C4 -/

/-- The empty `self._clients` dict of a freshly constructed provider. -/
def freshCache : ClientCache := { cache := [], constructed := 0 }

/-- Claim C4 (code bug): both client getters store each newly constructed
client under the literal dict key `"type"` instead of the requested
resource-type, so a second request for the same resource type misses the
cache and constructs a second client — contradicting the getters' own
`Create/cache/return` docstrings and the intended per-type cache.  Here:
after two `_get_aws_client('ec2')` calls two clients have been
constructed, the two calls returned different clients, and the cache holds
only the key `"type"`; likewise for two `_get_azure_client('postgresql')`
calls. -/
theorem c4_cache_stores_under_literal_type :
    ((_get_aws_client "ec2" (_get_aws_client "ec2" freshCache).2).2.constructed = 2
      ∧ (_get_aws_client "ec2" freshCache).1 = 0
      ∧ (_get_aws_client "ec2" (_get_aws_client "ec2" freshCache).2).1 = 1
      ∧ (_get_aws_client "ec2" freshCache).2.cache = [("type", 0)]
      ∧ (_get_aws_client "ec2" (_get_aws_client "ec2" freshCache).2).2.cache
          = [("type", 1)])
    ∧ ((_get_azure_client "postgresql"
          (_get_azure_client "postgresql" freshCache).2).2.constructed = 2
        ∧ (_get_azure_client "postgresql" freshCache).2.cache = [("type", 0)]) :=
  ⟨⟨rfl, rfl, rfl, rfl, rfl⟩, rfl, rfl⟩

/-! ## Claim C5 -/

/-- Claim C5 counterexample: `azure create-instance` and
`rds deploy-cluster` are parseable invocations of loaded providers, yet
the dispatcher raises an uncaught `AttributeError` at
`providers[p].commands` in each case — it neither invokes the operation
nor the provider's help routine; a loaded provider with no command at all
hits the same `AttributeError` instead of the claimed help routine. -/
theorem c5_counterexample :
    parsedInvocation (some "azure") (some "create-instance")
    ∧ execute_command (some "azure") (some "create-instance")
        = DispatchResult.attributeError "azure"
    ∧ parsedInvocation (some "rds") (some "deploy-cluster")
    ∧ execute_command (some "rds") (some "deploy-cluster")
        = DispatchResult.attributeError "rds"
    ∧ execute_command (some "azure") none = DispatchResult.attributeError "azure" :=
  ⟨⟨by decide, by decide⟩, rfl, ⟨by decide, by decide⟩, rfl, rfl⟩

/-- Claim C5 as amended: with no provider the dispatcher prints the
top-level usage help, but every branch that reaches a loaded provider —
whether the command is present, absent or unrecognized — raises an
uncaught `AttributeError` at `providers[p].commands` (no provider class
defines `commands`; the abstract base defines only `_commands`), so no
operation and no help routine is ever invoked; an unloaded provider name
would raise `KeyError` at the `providers` dict instead. -/
theorem c5_dispatcher_amended (p : String) (c : Option String) :
    execute_command none none = DispatchResult.topHelp
    ∧ (p ∈ providerNames →
        execute_command (some p) c = DispatchResult.attributeError p)
    ∧ (p ∉ providerNames →
        execute_command (some p) c = DispatchResult.keyErrProvider p) := by
  refine ⟨rfl, ?_, ?_⟩ <;> intro hp <;> simp [execute_command, hp]

/-- Witness for C5 (amended): a loaded provider with a recognized command,
a loaded provider without a command, and an unloaded provider name. -/
theorem c5_witness :
    execute_command (some "rds") (some "deploy-cluster")
      = DispatchResult.attributeError "rds"
    ∧ execute_command (some "starlight") none
        = DispatchResult.attributeError "starlight"
    ∧ execute_command (some "aws") none = DispatchResult.keyErrProvider "aws" :=
  ⟨(c5_dispatcher_amended "rds" (some "deploy-cluster")).2.1 (by decide),
   (c5_dispatcher_amended "starlight" none).2.1 (by decide),
   (c5_dispatcher_amended "aws" none).2.2 (by decide)⟩

/-! ## Claim C2 -/

/-- Claim C2: in an AWS-like `deploy-cluster` run named `db1` where
security-group creation, the ingress rule and the security-group describe
succeed and `create_db_instance` raises `DBInstanceAlreadyExistsFault`,
the orchestrator deletes the security group, the process exits with code
1, and standard output consists of exactly the JSON object
`error: RDS instance db1 already exists.` — in particular no Result Map
is produced. -/
theorem c2_already_exists (w : RdsWorld) (args : RdsArgs) (fuel : Nat)
    (gid : String) (sgv : PyVal)
    (hname : args.name = "db1")
    (hsg : w.create_security_group_result = Except.ok gid)
    (hir : w.authorize_ingress_result = Except.ok ())
    (hds : w.describe_security_groups_result = Except.ok sgv)
    (hcr : w.create_db_instance_result = Except.error RdsCreateErr.alreadyExists) :
    (deploy_cluster w args fuel).1 = Outcome.exit 1
    ∧ outs (deploy_cluster w args fuel).2
        = [PyVal.dict [("error", PyVal.str "RDS instance db1 already exists.")]]
    ∧ countSdk "delete_security_group" (deploy_cluster w args fuel).2 = 1 := by
  unfold deploy_cluster _create_security_group _add_ingress_rule
    _get_security_group _create_rds_instance
  rw [hsg, hir, hds, hcr, hname]
  refine ⟨rfl, ?_, ?_⟩ <;>
    simp [Res.bind, withEvents, error, output, outs_append, countSdk_append,
      outs_debug, countSdk_debug, outs_nil, outs_cons_out, outs_cons_err,
      outs_cons_sdk, outs_cons_sleep, countSdk_nil, countSdk_cons_sdk,
      countSdk_cons_out, countSdk_cons_err, countSdk_cons_sleep]

/-- Oracle for the C2 witness run: every step up to `create_db_instance`
succeeds, then the already-exists fault fires. -/
def c2World : RdsWorld :=
  { clock := ⟨1, 2, 3⟩
    ipPrimary := Except.ok "203.0.113.7"
    ipSecondary := Except.ok "203.0.113.7"
    randChoice := fun _ => ⟨0, by decide⟩
    create_security_group_result := Except.ok "sg-0a1b"
    authorize_ingress_result := Except.ok ()
    describe_security_groups_result := Except.ok (PyVal.list [])
    create_db_instance_result := Except.error RdsCreateErr.alreadyExists
    polls := fun _ => ⟨"available", PyVal.list []⟩
    delete_security_group_result := Except.ok () }

/-- The `rds deploy-cluster --name db1 ...` arguments used by the C2 and
C3 runs. -/
def db1Args : RdsArgs :=
  { debug := false, region := "us-east-1", name := "db1", db_name := "postgres",
    db_password := "secret", db_username := "postgres",
    instance_type := "db.m5.large", storage_iops := 0, storage_size := 100,
    storage_type := "gp2" }

/-- Witness for C2 on the concrete already-exists run. -/
theorem c2_witness :
    (deploy_cluster c2World db1Args 3).1 = Outcome.exit 1
    ∧ outs (deploy_cluster c2World db1Args 3).2
        = [PyVal.dict [("error", PyVal.str "RDS instance db1 already exists.")]]
    ∧ countSdk "delete_security_group" (deploy_cluster c2World db1Args 3).2 = 1 :=
  c2_already_exists c2World db1Args 3 "sg-0a1b" (PyVal.list []) rfl rfl rfl rfl rfl

/-! ## Claim C3 -/

/-- Oracle for the C3 run: security-group creation succeeds, the ingress
rule call fails. -/
def c3World : RdsWorld :=
  { clock := ⟨1, 2, 3⟩
    ipPrimary := Except.ok "203.0.113.7"
    ipSecondary := Except.ok "203.0.113.7"
    randChoice := fun _ => ⟨0, by decide⟩
    create_security_group_result := Except.ok "sg-0a1b"
    authorize_ingress_result := Except.error "UnauthorizedOperation"
    describe_security_groups_result := Except.ok (PyVal.list [])
    create_db_instance_result := Except.ok ()
    polls := fun _ => ⟨"available", PyVal.list []⟩
    delete_security_group_result := Except.ok () }

/-- Claim C3 counterexample: step 1 (create security group) succeeds and
step 2 (`authorize_security_group_ingress`) fails, yet the run performs no
`delete_security_group` call at all before printing the error and exiting
— `_add_ingress_rule`'s handler goes straight to `error` with no
compensating delete. -/
theorem c3_counterexample :
    (deploy_cluster c3World db1Args 3).1 = Outcome.exit 1
    ∧ countSdk "create_security_group" (deploy_cluster c3World db1Args 3).2 = 1
    ∧ countSdk "delete_security_group" (deploy_cluster c3World db1Args 3).2 = 0
    ∧ outs (deploy_cluster c3World db1Args 3).2
        = [PyVal.dict [("error", PyVal.str "UnauthorizedOperation")]] :=
  ⟨rfl, rfl, rfl, rfl⟩

/-- Claim C3 as amended: in every AWS-like `deploy-cluster` run where
step 1 succeeds and step 2 (the ingress rule) fails, the orchestrator
reports the fatal error and exits with code 1 WITHOUT attempting to
delete the step-1 security group — the compensating delete exists only in
the later describe-security-group and create-instance steps. -/
theorem c3_amended (w : RdsWorld) (args : RdsArgs) (fuel : Nat) (gid e : String)
    (hsg : w.create_security_group_result = Except.ok gid)
    (hir : w.authorize_ingress_result = Except.error e) :
    (deploy_cluster w args fuel).1 = Outcome.exit 1
    ∧ countSdk "delete_security_group" (deploy_cluster w args fuel).2 = 0
    ∧ outs (deploy_cluster w args fuel).2
        = [PyVal.dict [("error", PyVal.str e)]] := by
  unfold deploy_cluster _create_security_group _add_ingress_rule
  rw [hsg, hir]
  refine ⟨rfl, ?_, ?_⟩ <;>
    simp [Res.bind, withEvents, error, output, outs_append, countSdk_append,
      outs_debug, countSdk_debug, outs_nil, outs_cons_out, outs_cons_err,
      outs_cons_sdk, outs_cons_sleep, countSdk_nil, countSdk_cons_sdk,
      countSdk_cons_out, countSdk_cons_err, countSdk_cons_sleep]

/-- Witness for C3 (amended) on the concrete failed-ingress run. -/
theorem c3_witness :
    (deploy_cluster c3World db1Args 3).1 = Outcome.exit 1
    ∧ countSdk "delete_security_group" (deploy_cluster c3World db1Args 3).2 = 0
    ∧ outs (deploy_cluster c3World db1Args 3).2
        = [PyVal.dict [("error", PyVal.str "UnauthorizedOperation")]] :=
  c3_amended c3World db1Args 3 "sg-0a1b" "UnauthorizedOperation" rfl rfl

/-! ## Claim C6 -/

/-- The events of the wait-loop iterations that poll indices
`i, i+1, ..., i+k` (each iteration's events are `pollIterEvents`). -/
def pollTraceUpTo (w : RdsWorld) (args : RdsArgs) (i : Nat) : Nat → List Event
  | 0 => pollIterEvents w args i
  | k + 1 => pollIterEvents w args i ++ pollTraceUpTo w args (i + 1) k

theorem countSdk_pollTraceUpTo (w : RdsWorld) (args : RdsArgs) (k : Nat) :
    ∀ i, countSdk "describe_db_instances" (pollTraceUpTo w args i k) = k + 1 := by
  induction k with
  | zero =>
    intro i
    simp [pollTraceUpTo, pollIterEvents, countSdk_append, countSdk_cons_sdk,
      countSdk_debug, countSdk_nil, countSdk_cons_sleep]
  | succ k ih =>
    intro i
    simp [pollTraceUpTo, pollIterEvents, countSdk_append, countSdk_cons_sdk,
      countSdk_debug, countSdk_nil, countSdk_cons_sleep, ih]

/-- The wait loop started at poll index `i`, with the next non-transient
status `k` polls ahead and enough fuel, performs exactly the polls
`i..i+k` and returns the final poll's `DBInstances`. -/
theorem pollLoop_stops (w : RdsWorld) (args : RdsArgs) :
    ∀ (k i fuel : Nat),
      (∀ j, j < k → transient (w.polls (i + j)).status = true) →
      transient (w.polls (i + k)).status = false →
      k < fuel →
      pollLoop w args i fuel
        = (Outcome.ok (w.polls (i + k)).dbInstances, pollTraceUpTo w args i k) := by
  intro k
  induction k with
  | zero =>
    intro i fuel _ hstop hfuel
    cases fuel with
    | zero => omega
    | succ fuel =>
      rw [Nat.add_zero] at hstop
      simp [pollLoop, hstop, pollTraceUpTo]
  | succ k ih =>
    intro i fuel htrans hstop hfuel
    cases fuel with
    | zero => omega
    | succ fuel =>
      have h0 : transient (w.polls i).status = true := by
        have h := htrans 0 (Nat.succ_pos k)
        rw [Nat.add_zero] at h
        exact h
      have ht : ∀ j, j < k → transient (w.polls (i + 1 + j)).status = true := by
        intro j hj
        have h := htrans (j + 1) (by omega)
        have e : i + (j + 1) = i + 1 + j := by omega
        rw [e] at h
        exact h
      have hs : transient (w.polls (i + 1 + k)).status = false := by
        have e : i + 1 + k = i + (k + 1) := by omega
        rw [e]
        exact hstop
      have hrec := ih (i + 1) fuel ht hs (by omega)
      have e2 : i + 1 + k = i + (k + 1) := by omega
      rw [e2] at hrec
      simp [pollLoop, h0, withEvents, hrec, pollTraceUpTo]

/-- Claim C6: once `create_db_instance` is accepted, `_create_rds_instance`
polls `describe_db_instances`, each poll followed by a fixed
`time.sleep(30)` (visible in `pollIterEvents`), and the loop ends exactly
at the first poll whose status is neither `creating` nor `backing-up`;
given that such a poll exists (index `k`, all earlier polls transient) the
step terminates and returns the `DBInstances` description of that final
poll, having polled exactly `k + 1` times. -/
theorem c6_create_polls_until_stable (w : RdsWorld) (args : RdsArgs)
    (security_group : String) (k fuel : Nat)
    (hok : w.create_db_instance_result = Except.ok ())
    (htrans : ∀ j, j < k → transient (w.polls j).status = true)
    (hstop : transient (w.polls k).status = false)
    (hfuel : k < fuel) :
    _create_rds_instance w args security_group fuel
      = (Outcome.ok (w.polls k).dbInstances,
         debug args.debug w.clock ("Creating RDS instance: " ++ args.name ++ "...")
         ++ [Event.sdk "create_db_instance"]
         ++ pollTraceUpTo w args 0 k)
    ∧ countSdk "describe_db_instances" (pollTraceUpTo w args 0 k) = k + 1
    ∧ (∀ i, Event.sleepSec 30 ∈ pollIterEvents w args i) := by
  have hp := pollLoop_stops w args k 0 fuel
    (by intro j hj; simpa using htrans j hj) (by simpa using hstop) hfuel
  simp only [Nat.zero_add] at hp
  refine ⟨?_, countSdk_pollTraceUpTo w args k 0, ?_⟩
  · unfold _create_rds_instance
    rw [hok]
    simp [withEvents, hp]
  · intro i
    simp [pollIterEvents]

/-- Oracle for the C6 witness run: the first poll reports `creating`, the
second reports `available`. -/
def c6World : RdsWorld :=
  { clock := ⟨1, 2, 3⟩
    ipPrimary := Except.ok "203.0.113.7"
    ipSecondary := Except.ok "203.0.113.7"
    randChoice := fun _ => ⟨0, by decide⟩
    create_security_group_result := Except.ok "sg-0a1b"
    authorize_ingress_result := Except.ok ()
    describe_security_groups_result := Except.ok (PyVal.list [])
    create_db_instance_result := Except.ok ()
    polls := fun i =>
      if i = 0 then ⟨"creating", PyVal.list []⟩
      else ⟨"available", PyVal.str "instance-description"⟩
    delete_security_group_result := Except.ok () }

/-- Witness for C6: one transient poll, then `available` on poll index 1. -/
theorem c6_witness :
    _create_rds_instance c6World db1Args "sg-0a1b" 3
      = (Outcome.ok (c6World.polls 1).dbInstances,
         debug db1Args.debug c6World.clock
           ("Creating RDS instance: " ++ db1Args.name ++ "...")
         ++ [Event.sdk "create_db_instance"]
         ++ pollTraceUpTo c6World db1Args 0 1)
    ∧ countSdk "describe_db_instances" (pollTraceUpTo c6World db1Args 0 1) = 2
    ∧ (∀ i, Event.sleepSec 30 ∈ pollIterEvents c6World db1Args i) :=
  c6_create_polls_until_stable c6World db1Args "sg-0a1b" 1 3 rfl
    (by decide) (by decide) (by decide)

/-! ## Claim C1 -/

/-- The `azure create-instance --name server1 ...` arguments used by the
C1 and C9 runs. -/
def azArgs : AzureArgs :=
  { debug := false, region := "westeurope", resource_group := "rg1",
    name := "server1", db_name := "postgres", db_password := "secret",
    db_username := "postgres", db_major_version := "11",
    instance_type := "GP_Gen5_8", storage_size := 100 }

/-- Oracle for the C1 counterexample run: everything succeeds up to the
firewall-rule step, whose `begin_create_or_update` raises. -/
def c1World : AzureWorld :=
  { clock := ⟨1, 2, 3⟩
    ipPrimary := Except.ok "203.0.113.7"
    ipSecondary := Except.ok "203.0.113.7"
    randChoice := fun _ => ⟨0, by decide⟩
    resource_groups_create_or_update := Except.ok ⟨"rg1"⟩
    servers_get := ServersGet.notFound
    servers_begin_create := Except.ok ()
    create_poller_result :=
      Except.ok ⟨"srv-id", "westeurope", "server1.postgres.database.azure.com", "postgres"⟩
    firewall_begin_create_or_update := Except.error "HttpResponseError 429"
    firewall_poller_result := Except.ok ⟨"fw-id"⟩ }

/-- Claim C1 counterexample: a failure inside the Azure firewall-rule
creation step makes the exception propagate out of
`cmd_create_instance` uncaught — the run neither prints an
`error`-JSON object on standard output (the stdout trace is empty) nor
terminates through `sys.exit`; `_create_firewall_rule` contains no
`try`/`except` at all. -/
theorem c1_counterexample :
    (cmd_create_instance c1World azArgs).1 = Outcome.exc "HttpResponseError 429"
    ∧ outs (cmd_create_instance c1World azArgs).2 = [] :=
  ⟨rfl, rfl⟩

/-- Claim C1 as amended: every failure reported through the `error` helper
writes a debug line (exactly when the debug flag is set), prints exactly
one `error`-JSON object on standard output and terminates with exit code
1.  The SDK calls the source wraps in `try`/`except` are routed through
this helper on failure: the AWS-like provider's create-security-group,
add-ingress-rule, describe-security-group and create-db-instance calls,
and the Azure existence check (`servers.get`) and `servers.begin_create`
call.  But the Azure resource-group creation, the Azure create poller's
`result()` wait, and the entire Azure firewall-rule creation step (its
begin call and its poller wait) perform no exception handling: a failure
there propagates out of the command as an uncaught exception, with no
JSON error object printed and no `sys.exit`. -/
theorem c1_guarded_vs_unguarded_steps (w : AzureWorld) (w2 : RdsWorld)
    (args : AzureArgs) (args2 : RdsArgs) (fuel : Nat) (dbg : Bool) (t : Time)
    (m e : String) (rg : ResourceGroup) (srv : AzureServer) (gid : String)
    (sgv : PyVal) :
    ((error dbg t m : Res Unit).1 = Outcome.exit 1
      ∧ outs (error dbg t m : Res Unit).2 = [PyVal.dict [("error", PyVal.str m)]]
      ∧ errLines (error dbg t m : Res Unit).2
          = (if dbg then ["[" ++ strftimeHMS t ++ "]: " ++ m] else []))
    ∧ (w2.create_security_group_result = Except.error e →
        (deploy_cluster w2 args2 fuel).1 = Outcome.exit 1
        ∧ outs (deploy_cluster w2 args2 fuel).2
            = [PyVal.dict [("error", PyVal.str e)]])
    ∧ (w2.create_security_group_result = Except.ok gid →
        w2.authorize_ingress_result = Except.error e →
        (deploy_cluster w2 args2 fuel).1 = Outcome.exit 1
        ∧ outs (deploy_cluster w2 args2 fuel).2
            = [PyVal.dict [("error", PyVal.str e)]])
    ∧ (w2.create_security_group_result = Except.ok gid →
        w2.authorize_ingress_result = Except.ok () →
        w2.describe_security_groups_result = Except.error e →
        (deploy_cluster w2 args2 fuel).1 = Outcome.exit 1
        ∧ outs (deploy_cluster w2 args2 fuel).2
            = [PyVal.dict [("error", PyVal.str e)]])
    ∧ (w2.create_security_group_result = Except.ok gid →
        w2.authorize_ingress_result = Except.ok () →
        w2.describe_security_groups_result = Except.ok sgv →
        w2.create_db_instance_result = Except.error (RdsCreateErr.other e) →
        (deploy_cluster w2 args2 fuel).1 = Outcome.exit 1
        ∧ outs (deploy_cluster w2 args2 fuel).2
            = [PyVal.dict [("error", PyVal.str e)]])
    ∧ (w.resource_groups_create_or_update = Except.ok rg →
        w.servers_get = ServersGet.raises e →
        (cmd_create_instance w args).1 = Outcome.exit 1
        ∧ outs (cmd_create_instance w args).2
            = [PyVal.dict [("error", PyVal.str e)]])
    ∧ (w.resource_groups_create_or_update = Except.ok rg →
        w.servers_get = ServersGet.notFound →
        w.servers_begin_create = Except.error e →
        (cmd_create_instance w args).1 = Outcome.exit 1
        ∧ outs (cmd_create_instance w args).2
            = [PyVal.dict [("error", PyVal.str e)]])
    ∧ (w.resource_groups_create_or_update = Except.error e →
        (cmd_create_instance w args).1 = Outcome.exc e
        ∧ outs (cmd_create_instance w args).2 = [])
    ∧ (w.resource_groups_create_or_update = Except.ok rg →
        w.servers_get = ServersGet.notFound →
        w.servers_begin_create = Except.ok () →
        w.create_poller_result = Except.error e →
        (cmd_create_instance w args).1 = Outcome.exc e
        ∧ outs (cmd_create_instance w args).2 = [])
    ∧ (w.resource_groups_create_or_update = Except.ok rg →
        w.servers_get = ServersGet.notFound →
        w.servers_begin_create = Except.ok () →
        w.create_poller_result = Except.ok srv →
        w.firewall_begin_create_or_update = Except.error e →
        (cmd_create_instance w args).1 = Outcome.exc e
        ∧ outs (cmd_create_instance w args).2 = [])
    ∧ (w.resource_groups_create_or_update = Except.ok rg →
        w.servers_get = ServersGet.notFound →
        w.servers_begin_create = Except.ok () →
        w.create_poller_result = Except.ok srv →
        w.firewall_begin_create_or_update = Except.ok () →
        w.firewall_poller_result = Except.error e →
        (cmd_create_instance w args).1 = Outcome.exc e
        ∧ outs (cmd_create_instance w args).2 = []) := by
  refine ⟨⟨rfl, ?_, ?_⟩, ?_, ?_, ?_, ?_, ?_, ?_, ?_, ?_, ?_, ?_⟩
  · cases dbg <;> rfl
  · cases dbg <;> rfl
  all_goals intros
  all_goals
    simp only [deploy_cluster, cmd_create_instance, _create_security_group,
      _add_ingress_rule, _get_security_group, _create_rds_instance,
      _create_resource_group, _create_azure_instance, _create_firewall_rule]
  all_goals simp only [*]
  all_goals
    refine ⟨rfl, ?_⟩
  all_goals
    simp [Res.bind, withEvents, error, output, outs_append, outs_debug,
      outs_nil, outs_cons_out, outs_cons_err, outs_cons_sdk, outs_cons_sleep]

/-- Oracle for the C1 witness's guarded Azure failure run: the
`servers.begin_create` call raises inside its `try` block. -/
def c1WorldB : AzureWorld :=
  { clock := ⟨1, 2, 3⟩
    ipPrimary := Except.ok "203.0.113.7"
    ipSecondary := Except.ok "203.0.113.7"
    randChoice := fun _ => ⟨0, by decide⟩
    resource_groups_create_or_update := Except.ok ⟨"rg1"⟩
    servers_get := ServersGet.notFound
    servers_begin_create := Except.error "quota exceeded"
    create_poller_result :=
      Except.ok ⟨"srv-id", "westeurope", "server1.postgres.database.azure.com", "postgres"⟩
    firewall_begin_create_or_update := Except.ok ()
    firewall_poller_result := Except.ok ⟨"fw-id"⟩ }

/-- Oracle for the C1 witness's unguarded Azure resource-group failure
run: `resource_groups.create_or_update` raises with no handler around it. -/
def c1WorldRg : AzureWorld :=
  { clock := ⟨1, 2, 3⟩
    ipPrimary := Except.ok "203.0.113.7"
    ipSecondary := Except.ok "203.0.113.7"
    randChoice := fun _ => ⟨0, by decide⟩
    resource_groups_create_or_update := Except.error "rg denied"
    servers_get := ServersGet.notFound
    servers_begin_create := Except.ok ()
    create_poller_result :=
      Except.ok ⟨"srv-id", "westeurope", "server1.postgres.database.azure.com", "postgres"⟩
    firewall_begin_create_or_update := Except.ok ()
    firewall_poller_result := Except.ok ⟨"fw-id"⟩ }

/-- Oracle for the C1 witness's guarded AWS failure runs: one world whose
`create_security_group` call raises, and one whose `create_db_instance`
call raises an exception other than the already-exists fault. -/
def c1RdsWorldSg : RdsWorld :=
  { clock := ⟨1, 2, 3⟩
    ipPrimary := Except.ok "203.0.113.7"
    ipSecondary := Except.ok "203.0.113.7"
    randChoice := fun _ => ⟨0, by decide⟩
    create_security_group_result := Except.error "sg denied"
    authorize_ingress_result := Except.ok ()
    describe_security_groups_result := Except.ok (PyVal.list [])
    create_db_instance_result := Except.ok ()
    polls := fun _ => ⟨"available", PyVal.list []⟩
    delete_security_group_result := Except.ok () }

/-- Oracle for the C1 witness's guarded AWS create-instance failure run. -/
def c1RdsWorldDb : RdsWorld :=
  { clock := ⟨1, 2, 3⟩
    ipPrimary := Except.ok "203.0.113.7"
    ipSecondary := Except.ok "203.0.113.7"
    randChoice := fun _ => ⟨0, by decide⟩
    create_security_group_result := Except.ok "sg-0a1b"
    authorize_ingress_result := Except.ok ()
    describe_security_groups_result := Except.ok (PyVal.list [])
    create_db_instance_result :=
      Except.error (RdsCreateErr.other "InsufficientDBInstanceCapacity")
    polls := fun _ => ⟨"available", PyVal.list []⟩
    delete_security_group_result := Except.ok () }

/-- Witness for C1 (amended): the error helper with the debug flag set, a
guarded AWS create-security-group failure and a guarded AWS
create-instance failure each exiting 1 with the error JSON, a guarded
Azure begin-create failure exiting 1 with the error JSON, and the
unguarded Azure resource-group and firewall failures propagating with no
JSON. -/
theorem c1_witness :
    ((error true ⟨1, 2, 3⟩ "boom" : Res Unit).1 = Outcome.exit 1
      ∧ outs (error true ⟨1, 2, 3⟩ "boom" : Res Unit).2
          = [PyVal.dict [("error", PyVal.str "boom")]]
      ∧ errLines (error true ⟨1, 2, 3⟩ "boom" : Res Unit).2
          = (if true then ["[" ++ strftimeHMS ⟨1, 2, 3⟩ ++ "]: " ++ "boom"] else []))
    ∧ ((deploy_cluster c1RdsWorldSg db1Args 3).1 = Outcome.exit 1
        ∧ outs (deploy_cluster c1RdsWorldSg db1Args 3).2
            = [PyVal.dict [("error", PyVal.str "sg denied")]])
    ∧ ((deploy_cluster c1RdsWorldDb db1Args 3).1 = Outcome.exit 1
        ∧ outs (deploy_cluster c1RdsWorldDb db1Args 3).2
            = [PyVal.dict [("error", PyVal.str "InsufficientDBInstanceCapacity")]])
    ∧ ((cmd_create_instance c1WorldB azArgs).1 = Outcome.exit 1
        ∧ outs (cmd_create_instance c1WorldB azArgs).2
            = [PyVal.dict [("error", PyVal.str "quota exceeded")]])
    ∧ ((cmd_create_instance c1WorldRg azArgs).1 = Outcome.exc "rg denied"
        ∧ outs (cmd_create_instance c1WorldRg azArgs).2 = [])
    ∧ ((cmd_create_instance c1World azArgs).1 = Outcome.exc "HttpResponseError 429"
        ∧ outs (cmd_create_instance c1World azArgs).2 = []) :=
  ⟨(c1_guarded_vs_unguarded_steps c1World c1RdsWorldSg azArgs db1Args 3 true
      ⟨1, 2, 3⟩ "boom" "x" ⟨"rg1"⟩
      ⟨"srv-id", "westeurope", "server1.postgres.database.azure.com", "postgres"⟩
      "sg-0a1b" (PyVal.list [])).1,
   (c1_guarded_vs_unguarded_steps c1World c1RdsWorldSg azArgs db1Args 3 true
      ⟨1, 2, 3⟩ "boom" "sg denied" ⟨"rg1"⟩
      ⟨"srv-id", "westeurope", "server1.postgres.database.azure.com", "postgres"⟩
      "sg-0a1b" (PyVal.list [])).2.1 rfl,
   (c1_guarded_vs_unguarded_steps c1World c1RdsWorldDb azArgs db1Args 3 true
      ⟨1, 2, 3⟩ "boom" "InsufficientDBInstanceCapacity" ⟨"rg1"⟩
      ⟨"srv-id", "westeurope", "server1.postgres.database.azure.com", "postgres"⟩
      "sg-0a1b" (PyVal.list [])).2.2.2.2.1 rfl rfl rfl rfl,
   (c1_guarded_vs_unguarded_steps c1WorldB c1RdsWorldSg azArgs db1Args 3 true
      ⟨1, 2, 3⟩ "boom" "quota exceeded" ⟨"rg1"⟩
      ⟨"srv-id", "westeurope", "server1.postgres.database.azure.com", "postgres"⟩
      "sg-0a1b" (PyVal.list [])).2.2.2.2.2.2.1 rfl rfl rfl,
   (c1_guarded_vs_unguarded_steps c1WorldRg c1RdsWorldSg azArgs db1Args 3 true
      ⟨1, 2, 3⟩ "boom" "rg denied" ⟨"rg1"⟩
      ⟨"srv-id", "westeurope", "server1.postgres.database.azure.com", "postgres"⟩
      "sg-0a1b" (PyVal.list [])).2.2.2.2.2.2.2.1 rfl,
   (c1_guarded_vs_unguarded_steps c1World c1RdsWorldSg azArgs db1Args 3 true
      ⟨1, 2, 3⟩ "boom" "HttpResponseError 429" ⟨"rg1"⟩
      ⟨"srv-id", "westeurope", "server1.postgres.database.azure.com", "postgres"⟩
      "sg-0a1b" (PyVal.list [])).2.2.2.2.2.2.2.2.2.1 rfl rfl rfl rfl rfl⟩

/-! ## Claim C9 -/

/-- Oracle for a fully successful `rds deploy-cluster` run (instance
available on the first poll). -/
def c9World : RdsWorld :=
  { clock := ⟨1, 2, 3⟩
    ipPrimary := Except.ok "203.0.113.7"
    ipSecondary := Except.ok "203.0.113.7"
    randChoice := fun _ => ⟨0, by decide⟩
    create_security_group_result := Except.ok "sg-0a1b"
    authorize_ingress_result := Except.ok ()
    describe_security_groups_result := Except.ok (PyVal.list [PyVal.str "sg-desc"])
    create_db_instance_result := Except.ok ()
    polls := fun _ => ⟨"available", PyVal.list [PyVal.str "db-desc"]⟩
    delete_security_group_result := Except.ok () }

/-- Claim C9 counterexample: a fully successful AWS-like `deploy-cluster`
run hands the output sink a single map whose keys are exactly
`security_groups` and `clusters` (the raw describe responses) — none of
the documented fields (resource id, location, security-group identifier,
hostname, port, database name, master username) appears as a key, so the
claimed Result-Map shape fails for the AWS-like provider. -/
theorem c9_counterexample :
    (outs (deploy_cluster c9World db1Args 3).2).map PyVal.keys
      = [["security_groups", "clusters"]]
    ∧ "Port" ∉ ["security_groups", "clusters"]
    ∧ "Hostname" ∉ ["security_groups", "clusters"]
    ∧ "Username" ∉ ["security_groups", "clusters"] :=
  ⟨rfl, by decide, by decide, by decide⟩

/-- Claim C9 as amended: on a fully successful run the Azure provider's
Result Map contains exactly the eight keys `Id`, `ResourceGroupId`,
`FirewallRuleId`, `Location`, `Hostname`, `Port` (value 5432), `Database`
(value `"postgres"`) and `Username`, with no extraneous keys; the
AWS-like provider's Result Map instead contains exactly the two keys
`security_groups` and `clusters`, holding the raw
`describe_security_groups` and `DBInstances` responses. -/
theorem c9_result_maps (w : AzureWorld) (args : AzureArgs)
    (rg : ResourceGroup) (srv : AzureServer) (fw : FirewallRule)
    (w2 : RdsWorld) (args2 : RdsArgs) (fuel : Nat)
    (gid : String) (sgv dbis : PyVal) (cevs : List Event)
    (hrg : w.resource_groups_create_or_update = Except.ok rg)
    (hget : w.servers_get = ServersGet.notFound)
    (hbc : w.servers_begin_create = Except.ok ())
    (hpr : w.create_poller_result = Except.ok srv)
    (hfw1 : w.firewall_begin_create_or_update = Except.ok ())
    (hfw2 : w.firewall_poller_result = Except.ok fw)
    (hsg : w2.create_security_group_result = Except.ok gid)
    (hir : w2.authorize_ingress_result = Except.ok ())
    (hds : w2.describe_security_groups_result = Except.ok sgv)
    (hcri : _create_rds_instance w2 args2 gid fuel = (Outcome.ok dbis, cevs))
    (houts : outs cevs = []) :
    ((cmd_create_instance w args).1 = Outcome.ok ()
      ∧ outs (cmd_create_instance w args).2
          = [PyVal.dict
              [("Id", PyVal.str srv.id),
               ("ResourceGroupId", PyVal.str rg.name),
               ("FirewallRuleId", PyVal.str fw.id),
               ("Location", PyVal.str srv.location),
               ("Hostname", PyVal.str srv.fully_qualified_domain_name),
               ("Port", PyVal.int 5432),
               ("Database", PyVal.str "postgres"),
               ("Username", PyVal.str srv.administrator_login)]]
      ∧ (outs (cmd_create_instance w args).2).map PyVal.keys
          = [["Id", "ResourceGroupId", "FirewallRuleId", "Location",
              "Hostname", "Port", "Database", "Username"]])
    ∧ ((deploy_cluster w2 args2 fuel).1 = Outcome.ok ()
        ∧ outs (deploy_cluster w2 args2 fuel).2
            = [PyVal.dict [("security_groups", sgv), ("clusters", dbis)]]
        ∧ (outs (deploy_cluster w2 args2 fuel).2).map PyVal.keys
            = [["security_groups", "clusters"]]) := by
  constructor
  · unfold cmd_create_instance _create_resource_group _create_azure_instance
      _create_firewall_rule
    rw [hrg, hget, hbc, hpr, hfw1, hfw2]
    refine ⟨rfl, ?_, ?_⟩ <;>
      simp [Res.bind, withEvents, error, output, outs_append, outs_debug,
        outs_nil, outs_cons_out, outs_cons_err, outs_cons_sdk,
        outs_cons_sleep, PyVal.keys]
  · unfold deploy_cluster _create_security_group _add_ingress_rule
      _get_security_group
    rw [hsg, hir, hds]
    simp only [Res.bind, withEvents]
    rw [hcri]
    refine ⟨rfl, ?_, ?_⟩ <;>
      simp [error, output, outs_append, outs_debug,
        outs_nil, outs_cons_out, outs_cons_err, outs_cons_sdk,
        outs_cons_sleep, PyVal.keys, houts]

/-- Oracle for the C9 witness's successful Azure run. -/
def c9AzureWorld : AzureWorld :=
  { clock := ⟨1, 2, 3⟩
    ipPrimary := Except.ok "203.0.113.7"
    ipSecondary := Except.ok "203.0.113.7"
    randChoice := fun _ => ⟨0, by decide⟩
    resource_groups_create_or_update := Except.ok ⟨"rg1"⟩
    servers_get := ServersGet.notFound
    servers_begin_create := Except.ok ()
    create_poller_result :=
      Except.ok ⟨"srv-id", "westeurope", "server1.postgres.database.azure.com", "postgres"⟩
    firewall_begin_create_or_update := Except.ok ()
    firewall_poller_result := Except.ok ⟨"fw-id"⟩ }

/-- Witness for C9 (amended) on concrete fully-successful Azure and
AWS-like runs. -/
theorem c9_witness :
    ((cmd_create_instance c9AzureWorld azArgs).1 = Outcome.ok ()
      ∧ outs (cmd_create_instance c9AzureWorld azArgs).2
          = [PyVal.dict
              [("Id", PyVal.str "srv-id"),
               ("ResourceGroupId", PyVal.str "rg1"),
               ("FirewallRuleId", PyVal.str "fw-id"),
               ("Location", PyVal.str "westeurope"),
               ("Hostname", PyVal.str "server1.postgres.database.azure.com"),
               ("Port", PyVal.int 5432),
               ("Database", PyVal.str "postgres"),
               ("Username", PyVal.str "postgres")]]
      ∧ (outs (cmd_create_instance c9AzureWorld azArgs).2).map PyVal.keys
          = [["Id", "ResourceGroupId", "FirewallRuleId", "Location",
              "Hostname", "Port", "Database", "Username"]])
    ∧ ((deploy_cluster c9World db1Args 3).1 = Outcome.ok ()
        ∧ outs (deploy_cluster c9World db1Args 3).2
            = [PyVal.dict
                [("security_groups", PyVal.list [PyVal.str "sg-desc"]),
                 ("clusters", PyVal.list [PyVal.str "db-desc"])]]
        ∧ (outs (deploy_cluster c9World db1Args 3).2).map PyVal.keys
            = [["security_groups", "clusters"]]) :=
  c9_result_maps c9AzureWorld azArgs ⟨"rg1"⟩
    ⟨"srv-id", "westeurope", "server1.postgres.database.azure.com", "postgres"⟩
    ⟨"fw-id"⟩ c9World db1Args 3 "sg-0a1b"
    (PyVal.list [PyVal.str "sg-desc"]) (PyVal.list [PyVal.str "db-desc"])
    ((_create_rds_instance c9World db1Args "sg-0a1b" 3).2)
    rfl rfl rfl rfl rfl rfl rfl rfl rfl rfl rfl

end Pgacloud
